import Mathlib

/-!
Shallow embedding of the bounded job-polling client (`call_gumloop`) from
`src/calendar_agent.py` (lines 38-63) and `src/google_auth.py` (lines 105-130).

JSON values decoded by `response.json()` are modelled by the inductive `Json`.
Each network-plus-decode step (the submission POST and each status GET) is an
oracle value of type `Except String JObj`: `Except.error e` stands for a
transport-level Python exception carrying payload `e`, `Except.ok o` for a
successfully decoded JSON object.  Python `dict.get` on a non-dict value
raises `AttributeError`; this is modelled by `RunError.attributeError`.
The function returns the produced value together with the number of poll
calls performed.
-/

inductive Json where
  | null : Json
  | bool (b : Bool) : Json
  | num (n : Int) : Json
  | str (s : String) : Json
  | arr (elems : List Json) : Json
  | obj (fields : List (String × Json)) : Json

/-- A decoded JSON object: the association list of its fields (keys unique,
as produced by Python `json.loads`). -/
abbrev JObj := List (String × Json)

/-- First-match key lookup in a JSON object, the semantics of Python
`dict.get(key)` / `key in d` on objects with unique keys. -/
def lookupField : JObj → String → Option Json
  | [], _ => none
  | (k, v) :: rest, key => if k = key then some v else lookupField rest key

/-- Python `key in d` for a dict. -/
def hasKey (o : JObj) (k : String) : Bool :=
  (lookupField o k).isSome

/-- Errors a `call_gumloop` invocation can raise: a propagated transport
exception (network failure or JSON decode failure of a response), or the
`AttributeError` raised by `.get` on a non-dict value. -/
inductive RunError where
  | transport (e : String) : RunError
  | attributeError : RunError
  deriving DecidableEq

/-- Outcome of one HTTP call followed by `.json()`: either a transport-level
exception or a decoded JSON object. -/
abbrev HttpResult := Except String JObj

/-- `status.get("state") == "DONE"`: a Python value compares equal to the
string `"DONE"` exactly when it is that string. -/
def isDone (status : JObj) : Bool :=
  match lookupField status "state" with
  | some (Json.str s) => s == "DONE"
  | _ => false

/-- `status.get("state") in ["FAILED", "ERROR"]`. -/
def isFailedOrError (status : JObj) : Bool :=
  match lookupField status "state" with
  | some (Json.str s) => s == "FAILED" || s == "ERROR"
  | _ => false

/-- A poll response that is neither `DONE` nor `FAILED`/`ERROR`: the loop
treats it as still pending and keeps polling. -/
def nonTerminal (status : JObj) : Bool :=
  !(isDone status) && !(isFailedOrError status)

namespace GoogleAuth

/-- The body of `for _ in range(30)` in `google_auth.call_gumloop`
(src/google_auth.py lines 120-129): `fuel` is the number of loop iterations
left, `i` the index of the next poll response (also the number of polls
already performed).  Falls through to `return "AI request failed"` when the
fuel is exhausted. -/
def pollLoop (polls : Nat → HttpResult) : Nat → Nat → Except RunError (Json × Nat)
  | 0, i => Except.ok (Json.str "AI request failed", i)
  | fuel + 1, i =>
    match polls i with
    | Except.error e => Except.error (RunError.transport e)
    | Except.ok status =>
      if isDone status then
        match (lookupField status "outputs").getD (Json.obj []) with
        | Json.obj fields =>
          Except.ok ((lookupField fields "output").getD (Json.str "No response"), i + 1)
        | _ => Except.error RunError.attributeError
      else if isFailedOrError status then
        Except.ok (Json.str "AI request failed", i + 1)
      else
        pollLoop polls fuel (i + 1)

/-- `call_gumloop` from src/google_auth.py lines 105-130, parameterised by
the oracle of HTTP responses.  Returns the string produced together with the
number of poll (`get_pl_run`) calls performed, or the raised error. -/
def call_gumloop (submission : HttpResult) (polls : Nat → HttpResult) :
    Except RunError (Json × Nat) :=
  match submission with
  | Except.error e => Except.error (RunError.transport e)
  | Except.ok result =>
    if hasKey result "run_id" then
      pollLoop polls 30 0
    else
      Except.ok (Json.str "AI request failed", 0)

end GoogleAuth

namespace CalendarAgent

/-- The body of `for _ in range(30)` in `calendar_agent.call_gumloop`
(src/calendar_agent.py lines 53-62), transcribed from that file. -/
def pollLoop (polls : Nat → HttpResult) : Nat → Nat → Except RunError (Json × Nat)
  | 0, i => Except.ok (Json.str "AI request failed", i)
  | fuel + 1, i =>
    match polls i with
    | Except.error e => Except.error (RunError.transport e)
    | Except.ok status =>
      if isDone status then
        match (lookupField status "outputs").getD (Json.obj []) with
        | Json.obj fields =>
          Except.ok ((lookupField fields "output").getD (Json.str "No response"), i + 1)
        | _ => Except.error RunError.attributeError
      else if isFailedOrError status then
        Except.ok (Json.str "AI request failed", i + 1)
      else
        pollLoop polls fuel (i + 1)

/-- `call_gumloop` from src/calendar_agent.py lines 38-63, parameterised by
the oracle of HTTP responses. -/
def call_gumloop (submission : HttpResult) (polls : Nat → HttpResult) :
    Except RunError (Json × Nat) :=
  match submission with
  | Except.error e => Except.error (RunError.transport e)
  | Except.ok result =>
    if hasKey result "run_id" then
      pollLoop polls 30 0
    else
      Except.ok (Json.str "AI request failed", 0)

end CalendarAgent

/-- Checks whether a run outcome is a normally returned string value (as
opposed to a raised error or a non-string return such as `None`). -/
def returnsString : Except RunError (Json × Nat) → Bool
  | Except.ok (Json.str _, _) => true
  | _ => false

/-- A poll response whose `DONE` payload path is well-shaped for `.get`:
if its state is `DONE` then its `outputs` field, when present, is a JSON
object, and that object's `output` field, when present, is a string. -/
def safeDoneShape (s : JObj) : Bool :=
  !(isDone s) ||
    (match lookupField s "outputs" with
     | none => true
     | some (Json.obj fields) =>
       (match lookupField fields "output" with
        | none => true
        | some (Json.str _) => true
        | some _ => false)
     | some _ => false)

/-- Concrete submission response carrying a `run_id`. -/
def subWithRunId : JObj := [("run_id", Json.str "abc")]

/-- Concrete submission response with no `run_id` field. -/
def subNoRunId : JObj := [("ok", Json.bool true)]

/-- Concrete non-terminal poll response. -/
def pendingPoll : JObj := [("state", Json.str "RUNNING")]

/-- Concrete `DONE` poll response with payload `"hello"` at `outputs.output`. -/
def donePollHello : JObj :=
  [("state", Json.str "DONE"), ("outputs", Json.obj [("output", Json.str "hello")])]

/-- Concrete `FAILED` poll response. -/
def failedPoll : JObj := [("state", Json.str "FAILED")]

/-- Concrete `DONE` poll response with no `outputs` field. -/
def doneNoOutputs : JObj := [("state", Json.str "DONE")]

/-- Concrete `DONE` poll response whose `outputs` object lacks the
`output` key. -/
def doneMissingOutputKey : JObj :=
  [("state", Json.str "DONE"), ("outputs", Json.obj [("other", Json.str "x")])]

/-- Concrete `DONE` poll response whose `outputs` field is JSON `null`
(not an object), on which Python `.get` raises `AttributeError`. -/
def doneNullOutputs : JObj := [("state", Json.str "DONE"), ("outputs", Json.null)]

/-- Poll oracle: one pending response, then `DONE` with payload. -/
def c1Polls : Nat → HttpResult := fun i =>
  if i = 0 then Except.ok pendingPoll else Except.ok donePollHello

/-- Poll oracle: 30 pending responses, then `DONE` with payload at index 30
(the 31st response, beyond the poll budget). -/
def latePolls : Nat → HttpResult := fun i =>
  if i < 30 then Except.ok pendingPoll else Except.ok donePollHello

/-- Poll oracle: always pending. -/
def pendingForever : Nat → HttpResult := fun _ => Except.ok pendingPoll

/-- Poll oracle: fails immediately. -/
def failedPolls : Nat → HttpResult := fun _ => Except.ok failedPoll

/-- Poll oracle: one pending response, then a transport error. -/
def transportPolls : Nat → HttpResult := fun i =>
  if i = 0 then Except.ok pendingPoll else Except.error "ConnectionError"

/-- Poll oracle: `DONE` responses whose `outputs` is `null`. -/
def nullOutputsPolls : Nat → HttpResult := fun _ => Except.ok doneNullOutputs

/-- Poll oracle: `DONE` responses with no `outputs` field. -/
def noOutputsPolls : Nat → HttpResult := fun _ => Except.ok doneNoOutputs

/-- Poll oracle: `DONE` responses whose `outputs` object lacks `output`. -/
def missingKeyPolls : Nat → HttpResult := fun _ => Except.ok doneMissingOutputKey

/-! ## Helper lemmas about the poll loop -/

namespace GoogleAuth

theorem pollLoop_step (polls : Nat → HttpResult) (fuel i : Nat) (status : JObj)
    (h : polls i = Except.ok status) (hnt : nonTerminal status = true) :
    pollLoop polls (fuel + 1) i = pollLoop polls fuel (i + 1) := by
  rw [nonTerminal, Bool.and_eq_true, Bool.not_eq_true', Bool.not_eq_true'] at hnt
  obtain ⟨hd, hf⟩ := hnt
  simp [pollLoop, h, hd, hf]

theorem pollLoop_skip (polls : Nat → HttpResult) (k : Nat) :
    ∀ (fuel i : Nat),
    (∀ j, j < k → ∃ s, polls (i + j) = Except.ok s ∧ nonTerminal s = true) →
    pollLoop polls (fuel + k) i = pollLoop polls fuel (i + k) := by
  induction k with
  | zero => intro fuel i _; rfl
  | succ k ih =>
    intro fuel i h
    obtain ⟨s, hs, hnt⟩ := h 0 (Nat.succ_pos k)
    rw [Nat.add_zero] at hs
    rw [show fuel + (k + 1) = (fuel + k) + 1 by omega,
      pollLoop_step polls (fuel + k) i s hs hnt]
    have h2 : ∀ j, j < k → ∃ s2, polls (i + 1 + j) = Except.ok s2 ∧ nonTerminal s2 = true := by
      intro j hj
      have := h (j + 1) (by omega)
      rwa [show i + (j + 1) = i + 1 + j by omega] at this
    rw [ih fuel (i + 1) h2, show i + 1 + k = i + (k + 1) by omega]

theorem pollLoop_reach (polls : Nat → HttpResult) (k : Nat) (hk : k ≤ 30)
    (hpriors : ∀ j, j < k → ∃ s, polls j = Except.ok s ∧ nonTerminal s = true) :
    pollLoop polls 30 0 = pollLoop polls (30 - k) k := by
  have h := pollLoop_skip polls k (30 - k) 0 (by simpa using hpriors)
  rw [show (30 - k) + k = 30 by omega] at h
  simpa using h

end GoogleAuth

theorem isDone_eq_false_of_isFailedOrError (s : JObj) (h : isFailedOrError s = true) :
    isDone s = false := by
  rw [isFailedOrError] at h
  rw [isDone]
  cases hst : lookupField s "state" with
  | none => rfl
  | some j =>
    rw [hst] at h
    cases j with
    | str st =>
      rcases Bool.or_eq_true_iff.mp h with h1 | h1 <;> rw [beq_iff_eq] at h1 <;>
        subst h1 <;> rfl
    | null => exact Bool.noConfusion h
    | bool b => exact Bool.noConfusion h
    | num n => exact Bool.noConfusion h
    | arr xs => exact Bool.noConfusion h
    | obj fs => exact Bool.noConfusion h

namespace GoogleAuth

theorem run_reaches (sub : JObj) (polls : Nat → HttpResult) (k : Nat)
    (hrun : hasKey sub "run_id" = true) (hk : k ≤ 30)
    (hpriors : ∀ j, j < k → ∃ s, polls j = Except.ok s ∧ nonTerminal s = true) :
    call_gumloop (Except.ok sub) polls = pollLoop polls (30 - k) k := by
  rw [call_gumloop]
  simp only [hrun, if_true]
  exact pollLoop_reach polls k hk hpriors

theorem run_no_run_id (sub : JObj) (polls : Nat → HttpResult)
    (hrun : lookupField sub "run_id" = none) :
    call_gumloop (Except.ok sub) polls = Except.ok (Json.str "AI request failed", 0) := by
  rw [call_gumloop]
  simp [hasKey, hrun]

theorem run_timeout (sub : JObj) (polls : Nat → HttpResult)
    (hrun : hasKey sub "run_id" = true)
    (hpend : ∀ i, i < 30 → ∃ s, polls i = Except.ok s ∧ nonTerminal s = true) :
    call_gumloop (Except.ok sub) polls = Except.ok (Json.str "AI request failed", 30) := by
  rw [run_reaches sub polls 30 hrun (by omega) hpend]
  rfl

theorem run_done_payload (sub : JObj) (polls : Nat → HttpResult) (k : Nat)
    (s : JObj) (fields : JObj) (v : Json)
    (hrun : hasKey sub "run_id" = true) (hk : k < 30)
    (hpriors : ∀ j, j < k → ∃ st, polls j = Except.ok st ∧ nonTerminal st = true)
    (hs : polls k = Except.ok s) (hdone : isDone s = true)
    (houts : lookupField s "outputs" = some (Json.obj fields))
    (hv : lookupField fields "output" = some v) :
    call_gumloop (Except.ok sub) polls = Except.ok (v, k + 1) := by
  rw [run_reaches sub polls k hrun (by omega) hpriors]
  obtain ⟨m, hm⟩ : ∃ m, 30 - k = m + 1 := ⟨30 - k - 1, by omega⟩
  rw [hm]
  simp [pollLoop, hs, hdone, houts, hv]

theorem run_done_no_outputs (sub : JObj) (polls : Nat → HttpResult) (k : Nat)
    (s : JObj)
    (hrun : hasKey sub "run_id" = true) (hk : k < 30)
    (hpriors : ∀ j, j < k → ∃ st, polls j = Except.ok st ∧ nonTerminal st = true)
    (hs : polls k = Except.ok s) (hdone : isDone s = true)
    (houts : lookupField s "outputs" = none) :
    call_gumloop (Except.ok sub) polls = Except.ok (Json.str "No response", k + 1) := by
  rw [run_reaches sub polls k hrun (by omega) hpriors]
  obtain ⟨m, hm⟩ : ∃ m, 30 - k = m + 1 := ⟨30 - k - 1, by omega⟩
  rw [hm]
  simp [pollLoop, hs, hdone, houts, lookupField]

theorem run_done_missing_output (sub : JObj) (polls : Nat → HttpResult) (k : Nat)
    (s : JObj) (fields : JObj)
    (hrun : hasKey sub "run_id" = true) (hk : k < 30)
    (hpriors : ∀ j, j < k → ∃ st, polls j = Except.ok st ∧ nonTerminal st = true)
    (hs : polls k = Except.ok s) (hdone : isDone s = true)
    (houts : lookupField s "outputs" = some (Json.obj fields))
    (hnov : lookupField fields "output" = none) :
    call_gumloop (Except.ok sub) polls = Except.ok (Json.str "No response", k + 1) := by
  rw [run_reaches sub polls k hrun (by omega) hpriors]
  obtain ⟨m, hm⟩ : ∃ m, 30 - k = m + 1 := ⟨30 - k - 1, by omega⟩
  rw [hm]
  simp [pollLoop, hs, hdone, houts, hnov]

theorem run_remote_failure (sub : JObj) (polls : Nat → HttpResult) (k : Nat)
    (s : JObj)
    (hrun : hasKey sub "run_id" = true) (hk : k < 30)
    (hpriors : ∀ j, j < k → ∃ st, polls j = Except.ok st ∧ nonTerminal st = true)
    (hs : polls k = Except.ok s) (hfail : isFailedOrError s = true) :
    call_gumloop (Except.ok sub) polls = Except.ok (Json.str "AI request failed", k + 1) := by
  rw [run_reaches sub polls k hrun (by omega) hpriors]
  obtain ⟨m, hm⟩ : ∃ m, 30 - k = m + 1 := ⟨30 - k - 1, by omega⟩
  rw [hm]
  simp [pollLoop, hs, hfail, isDone_eq_false_of_isFailedOrError s hfail]

theorem run_transport_at (sub : JObj) (polls : Nat → HttpResult) (k : Nat) (e : String)
    (hrun : hasKey sub "run_id" = true) (hk : k < 30)
    (hpriors : ∀ j, j < k → ∃ st, polls j = Except.ok st ∧ nonTerminal st = true)
    (herr : polls k = Except.error e) :
    call_gumloop (Except.ok sub) polls = Except.error (RunError.transport e) := by
  rw [run_reaches sub polls k hrun (by omega) hpriors]
  obtain ⟨m, hm⟩ : ∃ m, 30 - k = m + 1 := ⟨30 - k - 1, by omega⟩
  rw [hm]
  simp [pollLoop, herr]

end GoogleAuth

namespace GoogleAuth

theorem pollLoop_total (polls : Nat → HttpResult)
    (hp : ∀ i, ∃ s, polls i = Except.ok s ∧ safeDoneShape s = true) :
    ∀ fuel i, ∃ t n, pollLoop polls fuel i = Except.ok (Json.str t, n) := by
  intro fuel
  induction fuel with
  | zero => intro i; exact ⟨"AI request failed", i, rfl⟩
  | succ fuel ih =>
    intro i
    obtain ⟨s, hs, hsafe⟩ := hp i
    by_cases hd : isDone s = true
    · simp only [safeDoneShape, hd, Bool.not_true, Bool.false_or] at hsafe
      cases houts : lookupField s "outputs" with
      | none =>
        exact ⟨"No response", i + 1, by simp [pollLoop, hs, hd, houts, lookupField]⟩
      | some j =>
        rw [houts] at hsafe
        cases j with
        | obj fields =>
          have hsafe2 : (match lookupField fields "output" with
            | none => true
            | some (Json.str _) => true
            | some _ => false) = true := hsafe
          cases hout : lookupField fields "output" with
          | none =>
            exact ⟨"No response", i + 1, by simp [pollLoop, hs, hd, houts, hout]⟩
          | some w =>
            rw [hout] at hsafe2
            cases w with
            | str t => exact ⟨t, i + 1, by simp [pollLoop, hs, hd, houts, hout]⟩
            | null => exact Bool.noConfusion hsafe2
            | bool b => exact Bool.noConfusion hsafe2
            | num n => exact Bool.noConfusion hsafe2
            | arr xs => exact Bool.noConfusion hsafe2
            | obj fs => exact Bool.noConfusion hsafe2
        | null => exact Bool.noConfusion hsafe
        | bool b => exact Bool.noConfusion hsafe
        | num n => exact Bool.noConfusion hsafe
        | str t => exact Bool.noConfusion hsafe
        | arr xs => exact Bool.noConfusion hsafe
    · by_cases hf : isFailedOrError s = true
      · exact ⟨"AI request failed", i + 1, by simp [pollLoop, hs, hd, hf]⟩
      · obtain ⟨t, n, hres⟩ := ih (i + 1)
        have hd0 : isDone s = false := by revert hd; cases isDone s <;> simp
        have hf0 : isFailedOrError s = false := by revert hf; cases isFailedOrError s <;> simp
        have hnt : nonTerminal s = true := by rw [nonTerminal, hd0, hf0]; rfl
        exact ⟨t, n, by rw [pollLoop_step polls fuel i s hs hnt]; exact hres⟩

end GoogleAuth

theorem pollLoop_copies_agree (polls : Nat → HttpResult) :
    ∀ fuel i, CalendarAgent.pollLoop polls fuel i = GoogleAuth.pollLoop polls fuel i := by
  intro fuel
  induction fuel with
  | zero => intro i; rfl
  | succ fuel ih =>
    intro i
    cases hpi : polls i with
    | error e => simp [CalendarAgent.pollLoop, GoogleAuth.pollLoop, hpi]
    | ok status =>
      by_cases hd : isDone status = true
      · simp [CalendarAgent.pollLoop, GoogleAuth.pollLoop, hpi, hd]
      · by_cases hf : isFailedOrError status = true
        · simp [CalendarAgent.pollLoop, GoogleAuth.pollLoop, hpi, hd, hf]
        · simp [CalendarAgent.pollLoop, GoogleAuth.pollLoop, hpi, hd, hf, ih]

/-! ## Claim theorems -/

/-- C1 (amended): for every N with 1 ≤ N ≤ 30, if the submission response
contains a run_id, the first N-1 poll responses each have a state not in
DONE/FAILED/ERROR, and the N-th poll response has state DONE with a payload
at outputs.output, then call_gumloop performs exactly N poll calls and
returns that payload.  (For N beyond the poll budget of 30 the loop stops at
30 polls with the failure string; see the counterexample.) -/
theorem claim_C1_pending_then_done (sub : JObj) (polls : Nat → HttpResult)
    (N : Nat) (s : JObj) (fields : JObj) (v : Json)
    (hrun : hasKey sub "run_id" = true) (hN1 : 1 ≤ N) (hN30 : N ≤ 30)
    (hpriors : ∀ j, j < N - 1 → ∃ st, polls j = Except.ok st ∧ nonTerminal st = true)
    (hs : polls (N - 1) = Except.ok s) (hdone : isDone s = true)
    (houts : lookupField s "outputs" = some (Json.obj fields))
    (hv : lookupField fields "output" = some v) :
    GoogleAuth.call_gumloop (Except.ok sub) polls = Except.ok (v, N) := by
  have h := GoogleAuth.run_done_payload sub polls (N - 1) s fields v hrun
    (by omega) hpriors hs hdone houts hv
  rwa [show N - 1 + 1 = N by omega] at h

/-- Counterexample to C1 as stated, at N = 31: with a run_id present, 30
non-terminal poll responses followed by a DONE response with payload "hello"
as the 31st response, the code performs 30 polls and returns the failure
string; it does not perform 31 polls and does not return the payload. -/
theorem claim_C1_counterexample :
    GoogleAuth.call_gumloop (Except.ok subWithRunId) latePolls =
      Except.ok (Json.str "AI request failed", 30) ∧
    GoogleAuth.call_gumloop (Except.ok subWithRunId) latePolls ≠
      Except.ok (Json.str "hello", 31) := by
  refine ⟨rfl, fun h => ?_⟩
  have h2 : (Except.ok (Json.str "AI request failed", (30 : Nat)) :
      Except RunError (Json × Nat)) = Except.ok (Json.str "hello", 31) := h
  injection h2 with h3
  injection h3 with h4 h5
  exact absurd h5 (by omega)

/-- Witness for C1 at N = 2: one pending response, then DONE with payload
"hello"; the run returns "hello" after exactly 2 polls. -/
theorem claim_C1_witness :
    GoogleAuth.call_gumloop (Except.ok subWithRunId) c1Polls =
      Except.ok (Json.str "hello", 2) :=
  claim_C1_pending_then_done subWithRunId c1Polls 2 donePollHello
    [("output", Json.str "hello")] (Json.str "hello") rfl (by omega) (by omega)
    (by intro j hj
        have hj0 : j = 0 := by omega
        subst hj0
        exact ⟨pendingPoll, rfl, rfl⟩)
    rfl rfl rfl rfl

/-- C2: if the submission response contains a run_id and no poll response
ever reaches a terminal state, call_gumloop performs exactly 30 poll calls
(the fixed poll budget) and returns the timeout failure string. -/
theorem claim_C2_timeout (sub : JObj) (polls : Nat → HttpResult)
    (hrun : hasKey sub "run_id" = true)
    (hpend : ∀ i, ∃ s, polls i = Except.ok s ∧ nonTerminal s = true) :
    GoogleAuth.call_gumloop (Except.ok sub) polls =
      Except.ok (Json.str "AI request failed", 30) :=
  GoogleAuth.run_timeout sub polls hrun (fun i _ => hpend i)

/-- Witness for C2: always-pending polls give the failure string after
exactly 30 polls. -/
theorem claim_C2_witness :
    GoogleAuth.call_gumloop (Except.ok subWithRunId) pendingForever =
      Except.ok (Json.str "AI request failed", 30) :=
  claim_C2_timeout subWithRunId pendingForever rfl
    (fun _ => ⟨pendingPoll, rfl, rfl⟩)

/-- C3: if the submission response contains no run_id field, call_gumloop
returns the fixed "AI request failed" string immediately with zero poll
calls (for every poll oracle). -/
theorem claim_C3_no_run_id (sub : JObj) (polls : Nat → HttpResult)
    (hrun : lookupField sub "run_id" = none) :
    GoogleAuth.call_gumloop (Except.ok sub) polls =
      Except.ok (Json.str "AI request failed", 0) :=
  GoogleAuth.run_no_run_id sub polls hrun

/-- Witness for C3: a submission response without run_id fails at once with
zero polls. -/
theorem claim_C3_witness :
    GoogleAuth.call_gumloop (Except.ok subNoRunId) pendingForever =
      Except.ok (Json.str "AI request failed", 0) :=
  claim_C3_no_run_id subNoRunId pendingForever rfl

/-- C4: if the first terminal poll response, at index k within the budget,
has state FAILED or ERROR, call_gumloop returns "AI request failed" having
performed exactly k+1 poll calls — none after that response. -/
theorem claim_C4_remote_failure (sub : JObj) (polls : Nat → HttpResult)
    (k : Nat) (s : JObj)
    (hrun : hasKey sub "run_id" = true) (hk : k < 30)
    (hpriors : ∀ j, j < k → ∃ st, polls j = Except.ok st ∧ nonTerminal st = true)
    (hs : polls k = Except.ok s) (hfail : isFailedOrError s = true) :
    GoogleAuth.call_gumloop (Except.ok sub) polls =
      Except.ok (Json.str "AI request failed", k + 1) :=
  GoogleAuth.run_remote_failure sub polls k s hrun hk hpriors hs hfail

/-- Witness for C4: an immediate FAILED response stops the run after one
poll with the failure string. -/
theorem claim_C4_witness :
    GoogleAuth.call_gumloop (Except.ok subWithRunId) failedPolls =
      Except.ok (Json.str "AI request failed", 1) :=
  claim_C4_remote_failure subWithRunId failedPolls 0 failedPoll rfl (by omega)
    (fun j hj => absurd hj (by omega)) rfl rfl

/-- C5: if the first decisive poll response, at index k within the budget,
has state DONE but carries no outputs field, call_gumloop returns the fixed
fallback "No response" rather than failing. -/
theorem claim_C5_done_without_outputs (sub : JObj) (polls : Nat → HttpResult)
    (k : Nat) (s : JObj)
    (hrun : hasKey sub "run_id" = true) (hk : k < 30)
    (hpriors : ∀ j, j < k → ∃ st, polls j = Except.ok st ∧ nonTerminal st = true)
    (hs : polls k = Except.ok s) (hdone : isDone s = true)
    (houts : lookupField s "outputs" = none) :
    GoogleAuth.call_gumloop (Except.ok sub) polls =
      Except.ok (Json.str "No response", k + 1) :=
  GoogleAuth.run_done_no_outputs sub polls k s hrun hk hpriors hs hdone houts

/-- Witness for C5: a first poll response with state DONE and no outputs
field returns "No response" after one poll. -/
theorem claim_C5_witness :
    GoogleAuth.call_gumloop (Except.ok subWithRunId) noOutputsPolls =
      Except.ok (Json.str "No response", 1) :=
  claim_C5_done_without_outputs subWithRunId noOutputsPolls 0 doneNoOutputs
    rfl (by omega) (fun j hj => absurd hj (by omega)) rfl rfl rfl

/-- C6: the three failure kinds — SubmissionFailed (no run_id), RemoteFailure
(a FAILED/ERROR poll state) and Timeout (poll budget exhausted) — all produce
the identical caller-visible value, the string "AI request failed"; only the
poll count (internal to the model) differs, so the returned value does not
distinguish them. -/
theorem claim_C6_failures_indistinguishable (sub1 sub2 sub3 : JObj)
    (polls1 polls2 polls3 : Nat → HttpResult) (s : JObj)
    (h1 : lookupField sub1 "run_id" = none)
    (h2run : hasKey sub2 "run_id" = true)
    (h2s : polls2 0 = Except.ok s) (h2f : isFailedOrError s = true)
    (h3run : hasKey sub3 "run_id" = true)
    (h3p : ∀ i, ∃ st, polls3 i = Except.ok st ∧ nonTerminal st = true) :
    GoogleAuth.call_gumloop (Except.ok sub1) polls1 =
      Except.ok (Json.str "AI request failed", 0) ∧
    GoogleAuth.call_gumloop (Except.ok sub2) polls2 =
      Except.ok (Json.str "AI request failed", 1) ∧
    GoogleAuth.call_gumloop (Except.ok sub3) polls3 =
      Except.ok (Json.str "AI request failed", 30) :=
  ⟨GoogleAuth.run_no_run_id sub1 polls1 h1,
   GoogleAuth.run_remote_failure sub2 polls2 0 s h2run (by omega)
     (fun j hj => absurd hj (by omega)) h2s h2f,
   GoogleAuth.run_timeout sub3 polls3 h3run (fun i _ => h3p i)⟩

/-- Witness for C6: the three concrete failure scenarios all return the same
"AI request failed" string. -/
theorem claim_C6_witness :
    GoogleAuth.call_gumloop (Except.ok subNoRunId) pendingForever =
      Except.ok (Json.str "AI request failed", 0) ∧
    GoogleAuth.call_gumloop (Except.ok subWithRunId) failedPolls =
      Except.ok (Json.str "AI request failed", 1) ∧
    GoogleAuth.call_gumloop (Except.ok subWithRunId) pendingForever =
      Except.ok (Json.str "AI request failed", 30) :=
  claim_C6_failures_indistinguishable subNoRunId subWithRunId subWithRunId
    pendingForever failedPolls pendingForever failedPoll rfl rfl rfl rfl rfl
    (fun _ => ⟨pendingPoll, rfl, rfl⟩)

/-- C7: a transport-level error (the HTTP call or its JSON decoding raising,
modelled as an `Except.error` oracle outcome) is propagated to the caller
unchanged — as `RunError.transport` carrying the same payload — whether it
occurs at submission or at any reachable poll; it is never converted into
the "AI request failed" string. -/
theorem claim_C7_transport_propagated (e : String) (sub : JObj)
    (polls0 polls : Nat → HttpResult) (k : Nat)
    (hrun : hasKey sub "run_id" = true) (hk : k < 30)
    (hpriors : ∀ j, j < k → ∃ st, polls j = Except.ok st ∧ nonTerminal st = true)
    (herr : polls k = Except.error e) :
    GoogleAuth.call_gumloop (Except.error e) polls0 =
      Except.error (RunError.transport e) ∧
    GoogleAuth.call_gumloop (Except.ok sub) polls =
      Except.error (RunError.transport e) :=
  ⟨rfl, GoogleAuth.run_transport_at sub polls k e hrun hk hpriors herr⟩

/-- Witness for C7: a ConnectionError at submission, and one at the second
poll, both surface unchanged as transport errors. -/
theorem claim_C7_witness :
    GoogleAuth.call_gumloop (Except.error "ConnectionError") transportPolls =
      Except.error (RunError.transport "ConnectionError") ∧
    GoogleAuth.call_gumloop (Except.ok subWithRunId) transportPolls =
      Except.error (RunError.transport "ConnectionError") :=
  claim_C7_transport_propagated "ConnectionError" subWithRunId transportPolls
    transportPolls 1 rfl (by omega)
    (by intro j hj
        have hj0 : j = 0 := by omega
        subst hj0
        exact ⟨pendingPoll, rfl, rfl⟩)
    rfl

/-- Counterexample to C8 as stated: with a run_id and a first poll response
that is the JSON object with state DONE and outputs null, call_gumloop does
not return a string — it raises AttributeError (Python `.get` on a non-dict),
so it is not total on arbitrary JSON objects. -/
theorem claim_C8_counterexample :
    GoogleAuth.call_gumloop (Except.ok subWithRunId) nullOutputsPolls =
      Except.error RunError.attributeError ∧
    returnsString (GoogleAuth.call_gumloop (Except.ok subWithRunId) nullOutputsPolls) =
      false :=
  ⟨rfl, rfl⟩

/-- C8 (amended): for every submission object and every poll sequence,
assuming no transport error and that each poll response is well-shaped on the
DONE payload path (its `outputs` field, when present on a DONE response, is
an object whose `output` value, when present, is a string), call_gumloop
returns some string — in particular a missing or unrecognized state field is
treated as still-pending and never raises a key error, and the result is
never null/None. -/
theorem claim_C8_returns_string (sub : JObj) (polls : Nat → HttpResult)
    (hp : ∀ i, ∃ s, polls i = Except.ok s ∧ safeDoneShape s = true) :
    ∃ t n, GoogleAuth.call_gumloop (Except.ok sub) polls =
      Except.ok (Json.str t, n) := by
  cases hr : hasKey sub "run_id" with
  | false =>
    exact ⟨"AI request failed", 0, by rw [GoogleAuth.call_gumloop]; simp [hr]⟩
  | true =>
    obtain ⟨t, n, h⟩ := GoogleAuth.pollLoop_total polls hp 30 0
    exact ⟨t, n, by rw [GoogleAuth.call_gumloop]; simp [hr, h]⟩

/-- Witness for C8 (amended) on a pending-then-done oracle. -/
theorem claim_C8_witness :
    ∃ t n, GoogleAuth.call_gumloop (Except.ok subWithRunId) c1Polls =
      Except.ok (Json.str t, n) :=
  claim_C8_returns_string subWithRunId c1Polls
    (fun i => by
      by_cases h : i = 0
      · subst h; exact ⟨pendingPoll, rfl, rfl⟩
      · exact ⟨donePollHello, by simp [c1Polls, h], rfl⟩)

/-- C9: the two textually duplicated copies of the run operation —
call_gumloop in src/calendar_agent.py and call_gumloop in src/google_auth.py
— are extensionally equal: on every submission outcome and every
poll-response oracle they produce the same result, including the same number
of poll calls. -/
theorem claim_C9_copies_extensionally_equal (submission : HttpResult)
    (polls : Nat → HttpResult) :
    CalendarAgent.call_gumloop submission polls =
      GoogleAuth.call_gumloop submission polls := by
  cases submission with
  | error e => rfl
  | ok result =>
    rw [CalendarAgent.call_gumloop, GoogleAuth.call_gumloop]
    cases hr : hasKey result "run_id" with
    | false => simp [hr]
    | true => simp [hr, pollLoop_copies_agree polls 30 0]

/-- C10: if the first decisive poll response, at index k within the budget,
has state DONE and an outputs object that lacks the "output" key,
call_gumloop still returns the fixed fallback "No response" — it neither
fails nor returns the partial outputs object. -/
theorem claim_C10_done_outputs_without_key (sub : JObj)
    (polls : Nat → HttpResult) (k : Nat) (s : JObj) (fields : JObj)
    (hrun : hasKey sub "run_id" = true) (hk : k < 30)
    (hpriors : ∀ j, j < k → ∃ st, polls j = Except.ok st ∧ nonTerminal st = true)
    (hs : polls k = Except.ok s) (hdone : isDone s = true)
    (houts : lookupField s "outputs" = some (Json.obj fields))
    (hnov : lookupField fields "output" = none) :
    GoogleAuth.call_gumloop (Except.ok sub) polls =
      Except.ok (Json.str "No response", k + 1) :=
  GoogleAuth.run_done_missing_output sub polls k s fields hrun hk hpriors hs
    hdone houts hnov

/-- Witness for C10: a first DONE response whose outputs object has only an
unrelated key returns "No response" after one poll. -/
theorem claim_C10_witness :
    GoogleAuth.call_gumloop (Except.ok subWithRunId) missingKeyPolls =
      Except.ok (Json.str "No response", 1) :=
  claim_C10_done_outputs_without_key subWithRunId missingKeyPolls 0
    doneMissingOutputKey [("other", Json.str "x")] rfl (by omega)
    (fun j hj => absurd hj (by omega)) rfl rfl rfl rfl
